import Mathlib

/-!
Verification development for the IKONOS DN to top-of-atmosphere radiance /
reflectance conversion module (src/i.ikonos.toar.py).

The module's calibration table, its date-dependent coefficient selection, the
raster-algebra statements it hands to the raster engine, and the per-run
orchestration (region handling, metadata resolution, the band loop, artifact
persistence, exit hooks) are embedded shallowly.  The raster engine itself is
the excluded collaborator: a run is embedded as the ordered trace of commands
issued to it, and a raster-algebra statement as its abstract syntax together
with its one-cell evaluation.  Numeric constants that the source serializes
with six decimals are kept exact.
-/

namespace IkonosToar

/-- Per-band calibration constants (source lines 155-159): pre-2001-02-22
calibration coefficient, post-update coefficient, effective bandwidth (nm),
mean solar exoatmospheric irradiance Esun (W/m2/um). -/
structure BandParams where
  ccPre : ℚ
  ccPost : ℚ
  bw : ℚ
  esun : ℚ
deriving DecidableEq

/-- The CC dictionary (lines 155-159).  The Python float literals 071.3 and
065.8 denote 71.3 and 65.8.  Dictionary lookup is embedded as a key-equality
chain; a key other than the five registered band names has no entry. -/
def CC (k : String) : Option BandParams :=
  if k = "Pan" then some ⟨161, 161, 403, 1375.8⟩
  else if k = "Blue" then some ⟨633, 728, 71.3, 1930.9⟩
  else if k = "Green" then some ⟨649, 727, 88.6, 1854.8⟩
  else if k = "Red" then some ⟨840, 949, 65.8, 1556.5⟩
  else if k = "NIR" then some ⟨746, 843, 95.4, 1156.9⟩
  else none

/-- The five registered band names (the keys of CC, line 163). -/
def registeredBands : List String :=
  ["Pan", "Blue", "Green", "Red", "NIR"]

/-- A calendar date: the (year, month, day) part of a Python datetime.  Both
datetimes compared by the module (lines 161 and 226) carry zero time fields. -/
structure Date where
  year : ℕ
  month : ℕ
  day : ℕ
deriving DecidableEq

/-- Python datetime comparison restricted to dates: strict lexicographic order
on (year, month, day). -/
def Date.lt (a b : Date) : Prop :=
  a.year < b.year ∨
    (a.year = b.year ∧ (a.month < b.month ∨ (a.month = b.month ∧ a.day < b.day)))

instance (a b : Date) : Decidable (Date.lt a b) := by
  unfold Date.lt
  infer_instance

/-- The calibration update date 2001-02-22 (line 161). -/
def cc_update : Date := ⟨2001, 2, 22⟩

/-- Coefficient selection (lines 273-278): the pre-update coefficient exactly
when the acquisition date is strictly earlier than cc_update, the post-update
coefficient otherwise.  The condition is a function of the date alone; the band
only selects which tuple the coefficient is read from. -/
def selectCC (p : BandParams) (acq : Date) : ℚ :=
  if Date.lt acq cc_update then p.ccPre else p.ccPost

/-- Longest prefix of a character list not containing a commercial-at: the
character-level meaning of taking the first piece of a Python split on that
character. -/
def takeUntilAt : List Char → List Char
  | [] => []
  | c :: cs => if c = '@' then [] else c :: takeUntilAt cs

/-- Lines 267-270: strip a mapset qualifier from a band name before the table
lookup; a name without the separator is returned unchanged. -/
def band_key (band : String) : String :=
  if '@' ∈ band.data then String.mk (takeUntilAt band.data) else band

/-- Table access as performed by the loop body (lines 267-281): look up the
part of the requested band name before the first qualifier separator. -/
def lookupParams (band : String) : Option BandParams :=
  CC (band_key band)

/-- Lines 350 and 362: the bare band name, qualifier stripped (the guard of
lines 267-270 is absent there; the split is applied unconditionally). -/
def bareName (band : String) : String :=
  String.mk (takeUntilAt band.data)

/-- Lines 350 and 362: name of the persisted end product, bare band name,
dot, configured output suffix. -/
def outputName (band suffix : String) : String :=
  bareName band ++ "." ++ suffix

/-- Abstract syntax of the raster-algebra statements the module hands to the
raster engine (grass.mapcalc receives them serialized as strings, lines 290 and
329).  Exponents are the numeric literals 4 and 2 of the source. -/
inductive MExpr (α : Type) where
  | num : α → MExpr α
  | map : String → MExpr α
  | mul : MExpr α → MExpr α → MExpr α
  | div : MExpr α → MExpr α → MExpr α
  | pow : MExpr α → ℕ → MExpr α
  | cos : MExpr α → MExpr α
deriving DecidableEq

/-- One-cell evaluation of a raster-algebra expression: env gives the value of
each referenced raster and cosF is the engine-supplied cosine (the engine
interprets its argument in degrees).  Division is field division. -/
def MExpr.eval {α : Type} [Field α] (cosF : α → α) (env : String → α) : MExpr α → α
  | MExpr.num q => q
  | MExpr.map s => env s
  | MExpr.mul a b => a.eval cosF env * b.eval cosF env
  | MExpr.div a b => a.eval cosF env / b.eval cosF env
  | MExpr.pow a n => a.eval cosF env ^ n
  | MExpr.cos a => cosF (a.eval cosF env)

/-- Line 290: the radiance statement, textually 10^4 * band / cc * bw.  In the
engine grammar exponentiation binds tightest and the remaining two operators
share one precedence level and associate to the left, so the statement parses
as ((10^4 * band) / cc) * bw. -/
def radExpr {α : Type} [Field α] (band : String) (cc bw : α) : MExpr α :=
  MExpr.mul
    (MExpr.div (MExpr.mul (MExpr.pow (MExpr.num 10) 4) (MExpr.map band)) (MExpr.num cc))
    (MExpr.num bw)

/-- Line 329: the reflectance statement, textually
pi * rad * esd^2 / esun * cos(sza), i.e. (((pi * rad) * esd^2) / esun) *
cos(sza).  The cosine receives the zenith-angle value itself — a quantity in
degrees (line 239) — with no radian conversion anywhere in the source. -/
def toarExpr {α : Type} [Field α] (rad : String) (piv esd esun sza : α) : MExpr α :=
  MExpr.mul
    (MExpr.div
      (MExpr.mul (MExpr.mul (MExpr.num piv) (MExpr.map rad)) (MExpr.pow (MExpr.num esd) 2))
      (MExpr.num esun))
    (MExpr.cos (MExpr.num sza))

/-- Lines 288-292 as a function of the enclosing local state: target name and
expression of the radiance conversion step.  The step is total: it contains no
check of its parameters and no error path. -/
def convertToRadiance (tmp band : String) (cc bw : ℚ) : String × MExpr ℚ :=
  (tmp ++ ".Radiance", radExpr band cc bw)

/-- The raster engine's cosine interprets its argument in degrees. -/
noncomputable def cosDeg (x : ℝ) : ℝ :=
  Real.cos (x * Real.pi / 180)

/-- One-cell semantics of the reflectance statement of line 329, under the
engine's degree cosine, with the exact value of pi. -/
noncomputable def reflectanceOf (radiance esd esun sza : ℝ) : ℝ :=
  (toarExpr "rad" Real.pi esd esun sza).eval cosDeg (fun _ => radiance)

/-- The Earth-Sun distance as a data-flow value: computed from the day-of-year
(jd_to_esd, line 230) or from the parsed UTC timestamp (line 233). -/
inductive EsdVal where
  | fromDoy : ℕ → EsdVal
  | fromUtc : String → EsdVal
deriving DecidableEq

inductive PipelineError where
  | utcParse : PipelineError
  | missingMetadata : PipelineError
  | unknownBand : String → PipelineError
deriving DecidableEq

/-- The commands a run issues to the raster engine, in order. -/
inductive Event where
  | saveRegion : Event
  | setRegion : String → Event
  | mapcalcRad : String → String → ℚ → ℚ → Event
  | mapcalcToar : String → String → EsdVal → ℚ → ℚ → Event
  | supportRad : String → Event
  | supportToar : String → Event
  | rename : String → String → Event
  | restoreRegion : Event
  | removeTmpRasters : Event
deriving DecidableEq

/-- Reads a nonempty all-digit character list as a number. -/
def digitsToNat (cs : List Char) : Option ℕ :=
  if cs ≠ [] ∧ cs.all (fun c => c.isDigit) then
    some (cs.foldl (fun n c => 10 * n + (c.toNat - 48)) 0)
  else none

/-- Modelled from the spec: the AcquisitionTime helper (module utc_to_esd,
imported at line 135, whose file is not under src/) parses a timestamp of the
form YYYY_MM_DDThh:mm:ss... into calendar fields; an input lacking the digit
fields at these positions — such as the empty string handed over when no UTC
value is supplied — fails to parse.  The module calls it unconditionally at
line 225, before the metadata check of lines 229-237. -/
def acquisitionTime (utc : String) : Except PipelineError Date :=
  match digitsToNat (utc.data.take 4), digitsToNat ((utc.data.drop 5).take 2),
      digitsToNat ((utc.data.drop 8).take 2) with
  | some y, some mo, some d => Except.ok ⟨y, mo, d⟩
  | _, _, _ => Except.error PipelineError.utcParse

/-- Lines 229-237: Earth-Sun distance selection.  A supplied day-of-year wins;
otherwise a nonempty UTC string supplies the distance derived from it;
otherwise the run is aborted with the missing-metadata message. -/
def resolveEsd (utc : String) (doy : Option ℕ) : Except PipelineError EsdVal :=
  match doy with
  | some d => Except.ok (EsdVal.fromDoy d)
  | none =>
    if utc = "" then Except.error PipelineError.missingMetadata
    else Except.ok (EsdVal.fromUtc utc)

/-- The option and flag values reaching main (lines 197-203): the band list,
the output suffix, the UTC string (empty when absent), the optional
day-of-year, the sun elevation angle, the radiance-only flag r and the
keep-region flag k. -/
structure Options where
  bands : List String
  outputsuffix : String
  utc : String
  doy : Option ℕ
  sea : ℚ
  radianceFlag : Bool
  keep_region : Bool
deriving DecidableEq

/-- One iteration of the band loop (lines 244-363): region match unless the
keep-region flag is set, qualifier stripping and table lookup, coefficient
selection, the radiance statement, the reflectance statement unless the
radiance-only flag is set, and metadata plus rename of the chosen end product.
A key missing from the table aborts the run (the Python KeyError raised at
line 276 or 278). -/
def bandEvents (keepRegion radianceFlag : Bool) (acq : Date) (esd : EsdVal) (sza : ℚ)
    (tmp suffix band : String) : List Event × Option PipelineError :=
  let pre : List Event := if keepRegion then [] else [Event.setRegion band]
  match CC (band_key band) with
  | none => (pre, some (PipelineError.unknownBand (band_key band)))
  | some p =>
    let cc := selectCC p acq
    let radPart : List Event := [Event.mapcalcRad (tmp ++ ".Radiance") band cc p.bw]
    let toarPart : List Event :=
      if radianceFlag then []
      else [Event.mapcalcToar (tmp ++ ".Reflectance") (tmp ++ ".Radiance") esd p.esun sza]
    let persistPart : List Event :=
      if radianceFlag then
        [Event.supportRad (tmp ++ ".Radiance"),
         Event.rename (tmp ++ ".Radiance") (outputName band suffix)]
      else
        [Event.supportToar (tmp ++ ".Reflectance"),
         Event.rename (tmp ++ ".Reflectance") (outputName band suffix)]
    (pre ++ radPart ++ toarPart ++ persistPart, none)

/-- The loop over the requested bands, stopped by the first failing band. -/
def processBands (keepRegion radianceFlag : Bool) (acq : Date) (esd : EsdVal) (sza : ℚ)
    (tmp suffix : String) : List String → List Event × Option PipelineError
  | [] => ([], none)
  | band :: rest =>
    match bandEvents keepRegion radianceFlag acq esd sza tmp suffix band with
    | (ev, some e) => (ev, some e)
    | (ev, none) =>
      let r := processBands keepRegion radianceFlag acq esd sza tmp suffix rest
      (ev ++ r.1, r.2)

/-- The body of main (lines 192-371): region saving, unconditional UTC parse
(line 225), Earth-Sun distance resolution (lines 229-237), zenith angle
(line 239), the band loop, and region restoration on the successful path
(lines 366-367). -/
def runMain (o : Options) (tmp : String) : List Event × Option PipelineError :=
  let pre : List Event := if o.keep_region then [] else [Event.saveRegion]
  match acquisitionTime o.utc with
  | Except.error e => (pre, some e)
  | Except.ok acq =>
    match resolveEsd o.utc o.doy with
    | Except.error e => (pre, some e)
    | Except.ok esd =>
      let sza : ℚ := 90 - o.sea
      let r := processBands o.keep_region o.radianceFlag acq esd sza tmp o.outputsuffix o.bands
      match r.2 with
      | some e => (pre ++ r.1, some e)
      | none => (pre ++ r.1 ++ (if o.keep_region then [] else [Event.restoreRegion]), none)

/-- Modelled from the spec for the two exit hooks: the temporary-raster cleanup
is registered with atexit before main starts (line 375) and therefore runs on
every termination, and the collaborator's scoped region save (line 217)
registers the region restoration to run at exit as well, a restoration that is
a guarded no-op when line 367 has already performed it. -/
def runProcess (o : Options) (tmp : String) : List Event × Option PipelineError :=
  let r := runMain o tmp
  let restoreHook : List Event :=
    if o.keep_region = false ∧ r.1.count Event.restoreRegion = 0 then [Event.restoreRegion]
    else []
  (r.1 ++ restoreHook ++ [Event.removeTmpRasters], r.2)

/-- The targets of the rename commands of a trace: the persisted artifact
names, in band order. -/
def renameTargets (evs : List Event) : List String :=
  evs.filterMap (fun e =>
    match e with
    | Event.rename _ tgt => some tgt
    | _ => none)

/-- Commands that create or modify a band artifact. -/
def isBandArtifactEvent : Event → Bool
  | Event.mapcalcRad _ _ _ _ => true
  | Event.mapcalcToar _ _ _ _ _ => true
  | Event.supportRad _ => true
  | Event.supportToar _ => true
  | Event.rename _ _ => true
  | _ => false

/-- The Earth-Sun distance value carried by a reflectance statement. -/
def esdTag : Event → Option EsdVal
  | Event.mapcalcToar _ _ v _ _ => some v
  | _ => none

/-- The zenith-angle value carried by a reflectance statement. -/
def szaTag : Event → Option ℚ
  | Event.mapcalcToar _ _ _ _ s => some s
  | _ => none

/-- A concrete run: the Red band, reflectance requested, UTC supplied, no
day-of-year, sun elevation 52 degrees. -/
def optsUtcRun : Options :=
  ⟨["Red"], "toar", "2002_05_25T09:27:00", none, 52, false, false⟩

/-- A concrete run with a day-of-year supplied in addition to the UTC string. -/
def optsDoyRun : Options :=
  ⟨["Red"], "toar", "2002_05_25T09:27:00", some 100, 52, false, false⟩

/-- A concrete run with neither a UTC string nor a day-of-year. -/
def optsNoMeta : Options :=
  ⟨["Red"], "toar", "", none, 52, false, false⟩

/-- A concrete run with a day-of-year but an empty UTC string. -/
def optsDoyNoUtc : Options :=
  ⟨["Red"], "toar", "", some 100, 52, false, false⟩

/-- A concrete run over two distinct band names sharing one bare name. -/
def optsCollide : Options :=
  ⟨["Red", "Red@m"], "toar", "2002_05_25T09:27:00", none, 52, false, false⟩

/-- A concrete run over two distinct registered bands. -/
def optsTwo : Options :=
  ⟨["Red", "Blue"], "toar", "2002_05_25T09:27:00", none, 52, false, false⟩

/-! ## Helper lemmas -/

theorem takeUntilAt_append (pre m : List Char) (h : '@' ∉ pre) :
    takeUntilAt (pre ++ '@' :: m) = pre := by
  induction pre with
  | nil => simp [takeUntilAt]
  | cons c cs ih =>
    have hc : c ≠ '@' := fun hc => h (by simp [hc])
    have hcs : '@' ∉ cs := fun hm => h (List.mem_cons_of_mem _ hm)
    show takeUntilAt (c :: (cs ++ '@' :: m)) = c :: cs
    rw [takeUntilAt, if_neg hc, ih hcs]

theorem CC_eq_none_of_not_registered (k : String) (h : k ∉ registeredBands) : CC k = none := by
  simp only [registeredBands, List.mem_cons, List.not_mem_nil, or_false, not_or] at h
  simp [CC, h.1, h.2.1, h.2.2.1, h.2.2.2.1, h.2.2.2.2]

theorem acquisitionTime_error (u : String) (e : PipelineError)
    (h : acquisitionTime u = Except.error e) : e = PipelineError.utcParse := by
  unfold acquisitionTime at h
  cases h1 : digitsToNat (u.data.take 4) <;>
    cases h2 : digitsToNat ((u.data.drop 5).take 2) <;>
      cases h3 : digitsToNat ((u.data.drop 8).take 2) <;>
        rw [h1, h2, h3] at h <;> simp at h <;> exact h.symm

theorem resolveEsd_error (u : String) (d : Option ℕ) (e : PipelineError)
    (h : resolveEsd u d = Except.error e) :
    u = "" ∧ d = none ∧ e = PipelineError.missingMetadata := by
  cases d with
  | some x => simp [resolveEsd] at h
  | none =>
    by_cases hu : u = ""
    · simp only [resolveEsd, if_pos hu] at h
      exact ⟨hu, rfl, (Except.error.inj h).symm⟩
    · simp [resolveEsd, hu] at h

theorem bandEvents_admin_free (k r : Bool) (acq : Date) (esd : EsdVal) (sza : ℚ)
    (tmp suffix band : String) :
    (∀ e ∈ (bandEvents k r acq esd sza tmp suffix band).1,
      e ≠ Event.restoreRegion ∧ e ≠ Event.saveRegion ∧ e ≠ Event.removeTmpRasters ∧
      (esdTag e = none ∨ esdTag e = some esd) ∧
      (szaTag e = none ∨ szaTag e = some sza)) ∧
    (∀ er, (bandEvents k r acq esd sza tmp suffix band).2 = some er →
      ∃ key, er = PipelineError.unknownBand key) := by
  cases hCC : CC (band_key band) with
  | none =>
    cases k <;>
      simp [bandEvents, hCC, esdTag, szaTag, List.forall_mem_cons]
  | some p =>
    cases k <;> cases r <;>
      simp [bandEvents, hCC, esdTag, szaTag, List.forall_mem_cons]

theorem renameTargets_bandEvents (k r : Bool) (acq : Date) (esd : EsdVal) (sza : ℚ)
    (tmp suffix band : String)
    (h : (bandEvents k r acq esd sza tmp suffix band).2 = none) :
    renameTargets (bandEvents k r acq esd sza tmp suffix band).1
      = [outputName band suffix] := by
  cases hCC : CC (band_key band) with
  | none => simp [bandEvents, hCC] at h
  | some p =>
    cases k <;> cases r <;>
      simp [bandEvents, hCC, renameTargets]

theorem processBands_facts (k r : Bool) (acq : Date) (esd : EsdVal) (sza : ℚ)
    (tmp suffix : String) (bs : List String) :
    (∀ e ∈ (processBands k r acq esd sza tmp suffix bs).1,
      e ≠ Event.restoreRegion ∧ e ≠ Event.saveRegion ∧ e ≠ Event.removeTmpRasters ∧
      (esdTag e = none ∨ esdTag e = some esd) ∧
      (szaTag e = none ∨ szaTag e = some sza)) ∧
    (∀ er, (processBands k r acq esd sza tmp suffix bs).2 = some er →
      ∃ key, er = PipelineError.unknownBand key) ∧
    ((processBands k r acq esd sza tmp suffix bs).2 = none →
      renameTargets (processBands k r acq esd sza tmp suffix bs).1
        = bs.map (fun b => outputName b suffix)) := by
  induction bs with
  | nil => simp [processBands, renameTargets]
  | cons band rest ih =>
    have hBand := bandEvents_admin_free k r acq esd sza tmp suffix band
    cases hBE : bandEvents k r acq esd sza tmp suffix band with
    | mk ev err =>
      rw [hBE] at hBand
      cases err with
      | some e =>
        simp only [processBands, hBE]
        exact ⟨hBand.1, fun er her => hBand.2 er her, by simp⟩
      | none =>
        have hrn : renameTargets ev = [outputName band suffix] := by
          have := renameTargets_bandEvents k r acq esd sza tmp suffix band
          rw [hBE] at this
          exact this rfl
        simp only [processBands, hBE]
        refine ⟨?_, ?_, ?_⟩
        · intro e he
          rcases List.mem_append.mp he with h1 | h2
          · exact hBand.1 e h1
          · exact ih.1 e h2
        · intro er her
          exact ih.2.1 er her
        · intro hnone
          rw [renameTargets, List.filterMap_append, ← renameTargets, ← renameTargets,
            hrn, ih.2.2 hnone, List.map_cons]
          rfl

theorem mem_savePre (b : Bool) (e : Event)
    (h : e ∈ (if b then ([] : List Event) else [Event.saveRegion])) :
    e = Event.saveRegion := by
  cases b <;> simp at h <;> exact h

theorem runMain_facts_tags (o : Options) (tmp : String) :
    ∀ e ∈ (runMain o tmp).1,
      (esdTag e = none ∨ ∃ v, resolveEsd o.utc o.doy = Except.ok v ∧ esdTag e = some v) ∧
      (szaTag e = none ∨ szaTag e = some (90 - o.sea)) := by
  intro e he
  cases hAcq : acquisitionTime o.utc with
  | error er =>
    simp only [runMain, hAcq] at he
    rw [mem_savePre o.keep_region e he]
    exact ⟨Or.inl rfl, Or.inl rfl⟩
  | ok acq =>
    cases hEsd : resolveEsd o.utc o.doy with
    | error er =>
      simp only [runMain, hAcq, hEsd] at he
      rw [mem_savePre o.keep_region e he]
      exact ⟨Or.inl rfl, Or.inl rfl⟩
    | ok v =>
      have hpb := (processBands_facts o.keep_region o.radianceFlag acq v (90 - o.sea)
        tmp o.outputsuffix o.bands).1
      cases hr2 : (processBands o.keep_region o.radianceFlag acq v (90 - o.sea)
          tmp o.outputsuffix o.bands).2 with
      | some er =>
        simp only [runMain, hAcq, hEsd, hr2, List.mem_append] at he
        rcases he with h1 | h2
        · rw [mem_savePre o.keep_region e h1]
          exact ⟨Or.inl rfl, Or.inl rfl⟩
        · rcases hpb e h2 with ⟨-, -, -, htag, hsz⟩
          refine ⟨?_, hsz⟩
          rcases htag with hn | hs
          · exact Or.inl hn
          · exact Or.inr ⟨v, rfl, hs⟩
      | none =>
        simp only [runMain, hAcq, hEsd, hr2, List.mem_append] at he
        rcases he with (h1 | h2) | h3
        · rw [mem_savePre o.keep_region e h1]
          exact ⟨Or.inl rfl, Or.inl rfl⟩
        · rcases hpb e h2 with ⟨-, -, -, htag, hsz⟩
          refine ⟨?_, hsz⟩
          rcases htag with hn | hs
          · exact Or.inl hn
          · exact Or.inr ⟨v, rfl, hs⟩
        · have : e = Event.restoreRegion := by
            cases hk : o.keep_region <;> rw [hk] at h3 <;> simp at h3 <;> exact h3
          rw [this]
          exact ⟨Or.inl rfl, Or.inl rfl⟩

theorem runProcess_facts (o : Options) (tmp : String) :
    ∀ e ∈ (runProcess o tmp).1,
      (esdTag e = none ∨ ∃ v, resolveEsd o.utc o.doy = Except.ok v ∧ esdTag e = some v) ∧
      (szaTag e = none ∨ szaTag e = some (90 - o.sea)) := by
  intro e he
  simp only [runProcess, List.mem_append] at he
  rcases he with (h1 | h2) | h3
  · exact runMain_facts_tags o tmp e h1
  · have : e = Event.restoreRegion := by
      by_cases hg : (o.keep_region = false ∧
          (runMain o tmp).1.count Event.restoreRegion = 0)
      · rw [if_pos hg] at h2
        simpa using h2
      · rw [if_neg hg] at h2
        simp at h2
    rw [this]
    exact ⟨Or.inl rfl, Or.inl rfl⟩
  · simp at h3
    rw [h3]
    exact ⟨Or.inl rfl, Or.inl rfl⟩

theorem renameTargets_append (a b : List Event) :
    renameTargets (a ++ b) = renameTargets a ++ renameTargets b := by
  simp [renameTargets, List.filterMap_append]

theorem append_dot_injective (s : String) :
    Function.Injective (fun k : String => k ++ "." ++ s) := by
  intro a b hab
  have h1 : (a ++ ".").data ++ s.data = (b ++ ".").data ++ s.data :=
    congrArg String.data hab
  have h2 : a.data ++ (".").data = b.data ++ (".").data :=
    List.append_cancel_right h1
  have h3 : a.data = b.data := List.append_cancel_right h2
  cases a with
  | mk la =>
    cases b with
    | mk lb => exact congrArg String.mk h3

theorem runMain_restore_count (o : Options) (tmp : String) (hk : o.keep_region = false) :
    (runMain o tmp).1.count Event.restoreRegion
      = if (runMain o tmp).2 = none then 1 else 0 := by
  have hs : ([Event.saveRegion] : List Event).count Event.restoreRegion = 0 := by decide
  have hr1 : ([Event.restoreRegion] : List Event).count Event.restoreRegion = 1 := by decide
  cases hAcq : acquisitionTime o.utc with
  | error er => simp [runMain, hAcq, hk, hs]
  | ok acq =>
    cases hEsd : resolveEsd o.utc o.doy with
    | error er => simp [runMain, hAcq, hEsd, hk, hs]
    | ok v =>
      have hpb : (processBands o.keep_region o.radianceFlag acq v (90 - o.sea)
          tmp o.outputsuffix o.bands).1.count Event.restoreRegion = 0 :=
        List.count_eq_zero.mpr (fun hmem =>
          ((processBands_facts o.keep_region o.radianceFlag acq v (90 - o.sea)
            tmp o.outputsuffix o.bands).1 _ hmem).1 rfl)
      cases hr2 : (processBands o.keep_region o.radianceFlag acq v (90 - o.sea)
          tmp o.outputsuffix o.bands).2 with
      | some er =>
        rw [hk] at hr2 hpb
        simp [runMain, hAcq, hEsd, hr2, hk, List.count_append, hpb, hs]
      | none =>
        rw [hk] at hr2 hpb
        simp [runMain, hAcq, hEsd, hr2, hk, List.count_append, hpb, hs, hr1]

theorem runMain_renames (o : Options) (tmp : String) (h : (runMain o tmp).2 = none) :
    renameTargets (runMain o tmp).1
      = o.bands.map (fun b => outputName b o.outputsuffix) := by
  cases hAcq : acquisitionTime o.utc with
  | error er => simp [runMain, hAcq] at h
  | ok acq =>
    cases hEsd : resolveEsd o.utc o.doy with
    | error er => simp [runMain, hAcq, hEsd] at h
    | ok v =>
      cases hr2 : (processBands o.keep_region o.radianceFlag acq v (90 - o.sea)
          tmp o.outputsuffix o.bands).2 with
      | some er => simp [runMain, hAcq, hEsd, hr2] at h
      | none =>
        have hpb := (processBands_facts o.keep_region o.radianceFlag acq v (90 - o.sea)
          tmp o.outputsuffix o.bands).2.2 hr2
        have hpre : renameTargets (if o.keep_region then ([] : List Event)
            else [Event.saveRegion]) = [] := by
          cases o.keep_region <;> rfl
        have hrest : renameTargets (if o.keep_region then ([] : List Event)
            else [Event.restoreRegion]) = [] := by
          cases o.keep_region <;> rfl
        simp only [runMain, hAcq, hEsd, hr2]
        rw [renameTargets_append, renameTargets_append, hpre, hpb, hrest]
        simp

/-! ## Claim theorems -/

/-- C1: for every band, the DN-to-radiance statement computes
radiance = 10000 * dn / cc * bw with left-to-right grouping, i.e.
((10000 * dn) / cc) * bw, multiplying by the effective bandwidth rather than
dividing by it, where cc is the coefficient selected for the band and the
acquisition date. -/
theorem radiance_formula_spec :
    (∀ (band : String) (cc bw dn : ℚ),
      (radExpr band cc bw).eval (fun x => x) (fun _ => dn) = ((10000 * dn) / cc) * bw) ∧
    (∀ (band : String) (p : BandParams) (d : Date) (dn : ℚ),
      CC (band_key band) = some p →
      (radExpr band (selectCC p d) p.bw).eval (fun x => x) (fun _ => dn)
        = 10000 * dn / selectCC p d * p.bw) ∧
    ¬ ((radExpr "Red" (949 : ℚ) 65.8).eval (fun x => x) (fun _ => 100)
        = 10000 * 100 / 949 / 65.8) := by
  have hbase : ∀ (band : String) (cc bw dn : ℚ),
      (radExpr band cc bw).eval (fun x => x) (fun _ => dn) = 10000 * dn / cc * bw := by
    intro band cc bw dn
    show (10 : ℚ) ^ 4 * dn / cc * bw = 10000 * dn / cc * bw
    norm_num
  refine ⟨hbase, fun band p d dn _ => hbase band (selectCC p d) p.bw dn, ?_⟩
  rw [hbase "Red" 949 65.8 100]
  norm_num

/-- C1 witness: the radiance statement for the Red band after the update,
evaluated at the digital number 100. -/
theorem radiance_formula_spec_witness :
    (radExpr "Red" (selectCC ⟨840, 949, 65.8, 1556.5⟩ ⟨2002, 5, 25⟩) (65.8 : ℚ)).eval
        (fun x => x) (fun _ => 100)
      = 10000 * 100 / selectCC ⟨840, 949, 65.8, 1556.5⟩ ⟨2002, 5, 25⟩ * 65.8 :=
  radiance_formula_spec.2.1 "Red" ⟨840, 949, 65.8, 1556.5⟩ ⟨2002, 5, 25⟩ 100 (by rfl)

/-- C3: for every registered band the lookup selects the pre-update coefficient
exactly when the acquisition date is strictly before 2001-02-22 and the
post-update one otherwise; the date comparison is one shared predicate,
independent of the band; and for the Red band the post-update coefficient is
949, the effective bandwidth 65.8 and Esun 1556.5. -/
theorem coefficient_selection_spec :
    (∀ (p : BandParams) (d : Date), Date.lt d cc_update → selectCC p d = p.ccPre) ∧
    (∀ (p : BandParams) (d : Date), ¬ Date.lt d cc_update → selectCC p d = p.ccPost) ∧
    Date.lt ⟨2001, 2, 21⟩ cc_update ∧
    ¬ Date.lt ⟨2001, 2, 22⟩ cc_update ∧
    (∀ d : Date, Date.lt d cc_update ↔
      (d.year < 2001 ∨ (d.year = 2001 ∧ (d.month < 2 ∨ (d.month = 2 ∧ d.day < 22))))) ∧
    CC "Red" = some ⟨840, 949, 65.8, 1556.5⟩ := by
  refine ⟨?_, ?_, by decide, by decide, fun d => Iff.rfl, by rfl⟩
  · intro p d h
    simp [selectCC, h]
  · intro p d h
    simp [selectCC, h]

/-- C3 witness: the Red parameters on the day before the update and on the
update date itself. -/
theorem coefficient_selection_spec_witness :
    selectCC ⟨840, 949, 65.8, 1556.5⟩ ⟨2001, 2, 21⟩ = (840 : ℚ) ∧
    selectCC ⟨840, 949, 65.8, 1556.5⟩ ⟨2001, 2, 22⟩ = (949 : ℚ) :=
  ⟨coefficient_selection_spec.1 ⟨840, 949, 65.8, 1556.5⟩ ⟨2001, 2, 21⟩ (by decide),
   coefficient_selection_spec.2.1 ⟨840, 949, 65.8, 1556.5⟩ ⟨2001, 2, 22⟩ (by decide)⟩

/-- C7 counterexample: at a zero calibration coefficient the conversion step of
lines 288-292 completes normally — its result type has no error value and the
step performs no zero check — and the exact-arithmetic value of the submitted
statement is the junk value 0; no computation error is surfaced. -/
theorem degenerate_parameters_counterexample :
    convertToRadiance "tmp.0" "Red" 0 65.8 = ("tmp.0.Radiance", radExpr "Red" 0 65.8) ∧
    (radExpr "Red" (0 : ℚ) 65.8).eval (fun x => x) (fun _ => 100) = 0 := by
  refine ⟨rfl, ?_⟩
  show (10 : ℚ) ^ 4 * 100 / 0 * 65.8 = 0
  norm_num

/-- C7 amended: no registered band has a zero calibration coefficient (before
or after the update) or a zero Esun, so the degenerate division never arises in
a run; and the conversion step itself is an unconditional statement submission
with no zero check and no error path. -/
theorem degenerate_parameters_amended :
    (∀ (b : String) (p : BandParams), CC b = some p →
      p.ccPre ≠ 0 ∧ p.ccPost ≠ 0 ∧ p.esun ≠ 0 ∧ ∀ d : Date, selectCC p d ≠ 0) ∧
    (∀ (tmp band : String) (cc bw : ℚ),
      convertToRadiance tmp band cc bw = (tmp ++ ".Radiance", radExpr band cc bw)) := by
  refine ⟨?_, fun tmp band cc bw => rfl⟩
  intro b p h
  unfold CC at h
  split_ifs at h <;>
    simp only [Option.some.injEq] at h <;>
    subst h <;>
    exact ⟨by norm_num, by norm_num, by norm_num, fun d => by
      unfold selectCC
      split_ifs <;> norm_num⟩

/-- C7 witness: the amended statement instantiated at the Red band. -/
theorem degenerate_parameters_amended_witness :
    (⟨840, 949, 65.8, 1556.5⟩ : BandParams).ccPre ≠ 0 ∧
    (⟨840, 949, 65.8, 1556.5⟩ : BandParams).ccPost ≠ 0 ∧
    (⟨840, 949, 65.8, 1556.5⟩ : BandParams).esun ≠ 0 ∧
    ∀ d : Date, selectCC ⟨840, 949, 65.8, 1556.5⟩ d ≠ 0 :=
  degenerate_parameters_amended.1 "Red" ⟨840, 949, 65.8, 1556.5⟩ (by rfl)

/-- C10: calibration parameters of a qualified band name are looked up under
the substring before the first commercial-at, so a qualified and an unqualified
Red name receive identical parameters, and a name whose pre-qualifier part is
not one of the five registered bands fails the lookup. -/
theorem band_key_lookup_spec :
    (∀ pre m : String, '@' ∉ pre.data → lookupParams (pre ++ "@" ++ m) = CC pre) ∧
    lookupParams "Red@somemapset" = lookupParams "Red" ∧
    lookupParams "Red@somemapset" = some ⟨840, 949, 65.8, 1556.5⟩ ∧
    (∀ b : String, band_key b ∉ registeredBands → lookupParams b = none) := by
  refine ⟨?_, by rfl, by rfl, fun b h => CC_eq_none_of_not_registered _ h⟩
  intro pre m h
  have hdata : (pre ++ "@" ++ m).data = pre.data ++ '@' :: m.data := by
    rw [show (pre ++ "@" ++ m).data = (pre.data ++ ['@']) ++ m.data from rfl, List.append_assoc]
    rfl
  unfold lookupParams band_key
  rw [hdata, if_pos (by simp), takeUntilAt_append _ _ h]

/-- C10 witness: the general pre-qualifier statement applied to the Red band
with a concrete mapset qualifier. -/
theorem band_key_lookup_spec_witness :
    lookupParams ("Red" ++ "@" ++ "somemapset") = CC "Red" :=
  band_key_lookup_spec.1 "Red" "somemapset" (by decide)

/-- C2: when reflectance is requested, the statement of line 329 computes
pi * radiance * esd^2 / esun * cos(sza) with left-to-right grouping, i.e.
((pi * radiance * esd^2) / esun) * cos(sza), and the angle handed to the
engine cosine is sza = 90 - sunElevation itself, a degree value with no radian
conversion; every reflectance statement of a run carries exactly 90 - sea. -/
theorem toar_formula_spec :
    (∀ (rad : String) (esd esun sea : ℝ),
      toarExpr rad Real.pi esd esun (90 - sea)
        = MExpr.mul
            (MExpr.div
              (MExpr.mul (MExpr.mul (MExpr.num Real.pi) (MExpr.map rad))
                (MExpr.pow (MExpr.num esd) 2))
              (MExpr.num esun))
            (MExpr.cos (MExpr.num (90 - sea)))) ∧
    (∀ (rad : String) (rv esd esun sea : ℝ),
      (toarExpr rad Real.pi esd esun (90 - sea)).eval cosDeg (fun _ => rv)
        = ((Real.pi * rv * esd ^ 2) / esun) * cosDeg (90 - sea)) ∧
    (∀ (o : Options) (tmp : String), ∀ e ∈ (runProcess o tmp).1,
      szaTag e = none ∨ szaTag e = some (90 - o.sea)) :=
  ⟨fun _ _ _ _ => rfl, fun _ _ _ _ _ => rfl,
   fun o tmp e he => (runProcess_facts o tmp e he).2⟩

/-- C2 witness: the reflectance statement of a concrete UTC-based Red-band run
carries the zenith angle 90 - 52. -/
theorem toar_formula_spec_witness :
    szaTag (Event.mapcalcToar "tmp.0.Reflectance" "tmp.0.Radiance"
        (EsdVal.fromUtc "2002_05_25T09:27:00") 1556.5 (90 - 52)) = none ∨
    szaTag (Event.mapcalcToar "tmp.0.Reflectance" "tmp.0.Radiance"
        (EsdVal.fromUtc "2002_05_25T09:27:00") 1556.5 (90 - 52))
      = some (90 - optsUtcRun.sea) :=
  toar_formula_spec.2.2 optsUtcRun "tmp.0" _ (by
    have hL : (runProcess optsUtcRun "tmp.0").1
        = [Event.saveRegion, Event.setRegion "Red",
           Event.mapcalcRad "tmp.0.Radiance" "Red" 949 65.8,
           Event.mapcalcToar "tmp.0.Reflectance" "tmp.0.Radiance"
             (EsdVal.fromUtc "2002_05_25T09:27:00") 1556.5 (90 - 52),
           Event.supportToar "tmp.0.Reflectance",
           Event.rename "tmp.0.Reflectance" "Red.toar",
           Event.restoreRegion, Event.removeTmpRasters] := rfl
    rw [hL]
    simp)

/-- C4 counterexample: with neither a UTC timestamp nor a day-of-year the run
fails with the UTC-parse error of the unconditional AcquisitionTime call of
line 225, not with the missing-metadata error the claim names. -/
theorem missing_metadata_counterexample :
    (runProcess optsNoMeta "tmp.0").2 = some PipelineError.utcParse ∧
    some PipelineError.utcParse ≠ some PipelineError.missingMetadata :=
  ⟨rfl, by decide⟩

/-- C4 amended: with neither a UTC timestamp nor a day-of-year the run still
fails before any band artifact is created or modified, but the failure is the
UTC-parse error of the unconditional AcquisitionTime call of line 225; the
missing-metadata branch of line 236 is unreachable on every input. -/
theorem missing_metadata_amended :
    (∀ (o : Options) (tmp : String), o.utc = "" → o.doy = none →
      (runProcess o tmp).2 = some PipelineError.utcParse ∧
      ∀ e ∈ (runProcess o tmp).1, isBandArtifactEvent e = false) ∧
    (∀ (o : Options) (tmp : String),
      (runProcess o tmp).2 ≠ some PipelineError.missingMetadata) := by
  have hParseEmpty : acquisitionTime "" = Except.error PipelineError.utcParse := rfl
  constructor
  · intro o tmp hutc hdoy
    have hA : acquisitionTime o.utc = Except.error PipelineError.utcParse := by
      rw [hutc]
      exact hParseEmpty
    constructor
    · simp [runProcess, runMain, hA]
    · intro e he
      simp only [runProcess, List.mem_append] at he
      rcases he with (h1 | h2) | h3
      · simp only [runMain, hA] at h1
        rw [mem_savePre o.keep_region e h1]
        rfl
      · have he2 : e = Event.restoreRegion := by
          by_cases hg : (o.keep_region = false ∧
              (runMain o tmp).1.count Event.restoreRegion = 0)
          · rw [if_pos hg] at h2
            simpa using h2
          · rw [if_neg hg] at h2
            simp at h2
        rw [he2]
        rfl
      · simp at h3
        rw [h3]
        rfl
  · intro o tmp h
    have h2 : (runMain o tmp).2 = some PipelineError.missingMetadata := by
      simpa [runProcess] using h
    cases hAcq : acquisitionTime o.utc with
    | error er =>
      have her := acquisitionTime_error o.utc er hAcq
      rw [her] at hAcq
      simp [runMain, hAcq] at h2
    | ok acq =>
      cases hEsd : resolveEsd o.utc o.doy with
      | error er =>
        obtain ⟨hu, -, -⟩ := resolveEsd_error o.utc o.doy er hEsd
        rw [hu, hParseEmpty] at hAcq
        exact Except.noConfusion hAcq
      | ok v =>
        cases hr2 : (processBands o.keep_region o.radianceFlag acq v (90 - o.sea)
            tmp o.outputsuffix o.bands).2 with
        | some er =>
          simp only [runMain, hAcq, hEsd, hr2, Option.some.injEq] at h2
          obtain ⟨key, hkey⟩ := (processBands_facts o.keep_region o.radianceFlag acq v
            (90 - o.sea) tmp o.outputsuffix o.bands).2.1 er hr2
          rw [h2] at hkey
          exact PipelineError.noConfusion hkey
        | none =>
          simp [runMain, hAcq, hEsd, hr2] at h2

/-- C4 witness: the amended statement at a concrete run without metadata. -/
theorem missing_metadata_amended_witness :
    (runProcess optsNoMeta "tmp.1").2 = some PipelineError.utcParse ∧
    ∀ e ∈ (runProcess optsNoMeta "tmp.1").1, isBandArtifactEvent e = false :=
  missing_metadata_amended.1 optsNoMeta "tmp.1" rfl rfl

/-- C5 counterexample: a run with a day-of-year but no UTC string does not
succeed: it fails at the unconditional UTC parse of line 225, so the
day-of-year path does require the UTC timestamp. -/
theorem doy_esd_counterexample :
    optsDoyNoUtc.doy = some 100 ∧
    (runProcess optsDoyNoUtc "tmp.0").2 = some PipelineError.utcParse :=
  ⟨rfl, rfl⟩

/-- C5 amended: when a day-of-year is supplied every reflectance statement of
the run carries the Earth-Sun distance computed from that day-of-year, the
UTC-derived distance being ignored; but the UTC timestamp must still be
present and parseable, since it is parsed unconditionally at line 225 (and the
utc option is declared required). -/
theorem doy_esd_amended :
    (∀ (o : Options) (tmp : String) (d : ℕ), o.doy = some d →
      ∀ e ∈ (runProcess o tmp).1,
        esdTag e = none ∨ esdTag e = some (EsdVal.fromDoy d)) ∧
    (∀ (o : Options) (tmp : String), o.utc = "" →
      (runProcess o tmp).2 = some PipelineError.utcParse) := by
  constructor
  · intro o tmp d hd e he
    rcases (runProcess_facts o tmp e he).1 with hn | ⟨v, hv, hs⟩
    · exact Or.inl hn
    · rw [hd] at hv
      have hv2 : (Except.ok (EsdVal.fromDoy d) : Except PipelineError EsdVal)
          = Except.ok v := hv
      rw [← Except.ok.inj hv2] at hs
      exact Or.inr hs
  · intro o tmp hutc
    have hA : acquisitionTime o.utc = Except.error PipelineError.utcParse := by
      rw [hutc]
      exact rfl
    simp [runProcess, runMain, hA]

/-- C5 witness: the reflectance statement of a concrete run with day-of-year
100 carries the distance computed from day-of-year 100. -/
theorem doy_esd_amended_witness :
    esdTag (Event.mapcalcToar "tmp.0.Reflectance" "tmp.0.Radiance"
        (EsdVal.fromDoy 100) 1556.5 (90 - 52)) = none ∨
    esdTag (Event.mapcalcToar "tmp.0.Reflectance" "tmp.0.Radiance"
        (EsdVal.fromDoy 100) 1556.5 (90 - 52)) = some (EsdVal.fromDoy 100) :=
  doy_esd_amended.1 optsDoyRun "tmp.0" 100 rfl _ (by
    have hL : (runProcess optsDoyRun "tmp.0").1
        = [Event.saveRegion, Event.setRegion "Red",
           Event.mapcalcRad "tmp.0.Radiance" "Red" 949 65.8,
           Event.mapcalcToar "tmp.0.Reflectance" "tmp.0.Radiance"
             (EsdVal.fromDoy 100) 1556.5 (90 - 52),
           Event.supportToar "tmp.0.Reflectance",
           Event.rename "tmp.0.Reflectance" "Red.toar",
           Event.restoreRegion, Event.removeTmpRasters] := rfl
    rw [hL]
    simp)

/-- C6 counterexample: two distinct requested band names with equal bare
names; the run succeeds and persists both artifacts under one and the same
output name, so the persisted names are not pairwise distinct. -/
theorem output_naming_counterexample :
    ("Red" : String) ≠ "Red@m" ∧
    (runProcess optsCollide "tmp.0").2 = none ∧
    renameTargets (runProcess optsCollide "tmp.0").1 = ["Red.toar", "Red.toar"] ∧
    ¬ (["Red.toar", "Red.toar"] : List String).Nodup :=
  ⟨by decide, rfl, rfl, by decide⟩

/-- C6 amended: on a successful run each band is persisted under the bare band
name (qualifier stripped) followed by a dot and the output suffix, in band
order; the persisted names are pairwise distinct whenever the bare names of
the requested bands are pairwise distinct (two bands sharing a bare name
collide). -/
theorem output_naming_amended (o : Options) (tmp : String)
    (h : (runProcess o tmp).2 = none) :
    renameTargets (runProcess o tmp).1
      = o.bands.map (fun b => outputName b o.outputsuffix) ∧
    ((o.bands.map bareName).Nodup → (renameTargets (runProcess o tmp).1).Nodup) := by
  have h2 : (runMain o tmp).2 = none := by simpa [runProcess] using h
  have hmain := runMain_renames o tmp h2
  have hhook : renameTargets (if (o.keep_region = false ∧
      (runMain o tmp).1.count Event.restoreRegion = 0) then [Event.restoreRegion]
      else ([] : List Event)) = [] := by
    split <;> rfl
  have hfull : renameTargets (runProcess o tmp).1
      = o.bands.map (fun b => outputName b o.outputsuffix) := by
    simp only [runProcess]
    rw [renameTargets_append, renameTargets_append, hmain, hhook]
    simp [renameTargets]
  refine ⟨hfull, fun hnd => ?_⟩
  rw [hfull]
  have hcomp : o.bands.map (fun b => outputName b o.outputsuffix)
      = (o.bands.map bareName).map (fun k2 => k2 ++ "." ++ o.outputsuffix) := by
    rw [List.map_map]
    rfl
  rw [hcomp]
  exact List.Nodup.map (append_dot_injective o.outputsuffix) hnd

/-- C6 witness: a successful two-band run persists Red.toar and Blue.toar. -/
theorem output_naming_amended_witness :
    renameTargets (runProcess optsTwo "tmp.0").1
      = optsTwo.bands.map (fun b => outputName b optsTwo.outputsuffix) :=
  (output_naming_amended optsTwo "tmp.0" rfl).1

/-- C8: on every run the temporary-raster cleanup command is in the trace
before termination, and when the keep-region flag is unset the saved region is
restored exactly once — by line 367 on the successful path and by the exit
hook on every error path. -/
theorem cleanup_and_region_restoration (o : Options) (tmp : String) :
    Event.removeTmpRasters ∈ (runProcess o tmp).1 ∧
    (o.keep_region = false →
      (runProcess o tmp).1.count Event.restoreRegion = 1) := by
  constructor
  · simp [runProcess]
  · intro hk
    have hc := runMain_restore_count o tmp hk
    have hrm : ([Event.removeTmpRasters] : List Event).count Event.restoreRegion = 0 := by
      decide
    by_cases h2 : (runMain o tmp).2 = none
    · rw [if_pos h2] at hc
      simp [runProcess, List.count_append, hc, hrm]
    · rw [if_neg h2] at hc
      simp [runProcess, List.count_append, hc, hrm, hk]

/-- C8 witness: a concrete successful run removes the temporary rasters and
restores the region exactly once. -/
theorem cleanup_and_region_restoration_witness :
    Event.removeTmpRasters ∈ (runProcess optsUtcRun "tmp.0").1 ∧
    (runProcess optsUtcRun "tmp.0").1.count Event.restoreRegion = 1 :=
  ⟨(cleanup_and_region_restoration optsUtcRun "tmp.0").1,
   (cleanup_and_region_restoration optsUtcRun "tmp.0").2 rfl⟩

/-- C9 counterexample: holding the radiance fixed at the (negative) value -1
with esd = esun = 1, the reflectance increases from sza = 0 to sza = 60
degrees, so the claimed non-increase on [0, 90) fails for an arbitrary fixed
radiance. -/
theorem reflectance_monotone_counterexample :
    reflectanceOf (-1) 1 1 0 < reflectanceOf (-1) 1 1 60 := by
  have e60 : (60 : ℝ) * Real.pi / 180 = Real.pi / 3 := by ring
  have h0 : reflectanceOf (-1) 1 1 0 = -Real.pi := by
    show Real.pi * (-1) * 1 ^ 2 / 1 * Real.cos (0 * Real.pi / 180) = -Real.pi
    simp
  have h60 : reflectanceOf (-1) 1 1 60 = -(Real.pi / 2) := by
    show Real.pi * (-1) * 1 ^ 2 / 1 * Real.cos (60 * Real.pi / 180) = -(Real.pi / 2)
    rw [e60, Real.cos_pi_div_three]
    ring
  rw [h0, h60]
  linarith [Real.pi_pos]

/-- C9 amended: holding radiance, esd and esun fixed, with the radiance value
nonnegative and esun positive (every table Esun is positive), the reflectance
is monotonically non-increasing in sza over [0, 90) degrees; for a negative
fixed radiance the ordering reverses. -/
theorem reflectance_monotone_amended (radiance esd esun sza1 sza2 : ℝ)
    (hrad : 0 ≤ radiance) (hesun : 0 < esun)
    (h0 : 0 ≤ sza1) (h12 : sza1 ≤ sza2) (h90 : sza2 < 90) :
    reflectanceOf radiance esd esun sza2 ≤ reflectanceOf radiance esd esun sza1 := by
  have hform : ∀ sza : ℝ, reflectanceOf radiance esd esun sza
      = Real.pi * radiance * esd ^ 2 / esun * Real.cos (sza * Real.pi / 180) :=
    fun sza => rfl
  rw [hform, hform]
  have hC : 0 ≤ Real.pi * radiance * esd ^ 2 / esun := by positivity
  refine mul_le_mul_of_nonneg_left ?_ hC
  refine Real.cos_le_cos_of_nonneg_of_le_pi ?_ ?_ ?_
  · exact div_nonneg (mul_nonneg h0 Real.pi_nonneg) (by norm_num)
  · calc sza2 * Real.pi / 180 ≤ 90 * Real.pi / 180 := by
          gcongr
      _ = Real.pi / 2 := by ring
      _ ≤ Real.pi := by linarith [Real.pi_pos]
  · gcongr

/-- C9 witness: the amended statement at radiance 0, esun 1 and the angle
pair (0, 0). -/
theorem reflectance_monotone_amended_witness :
    reflectanceOf 0 1 1 0 ≤ reflectanceOf 0 1 1 0 :=
  reflectance_monotone_amended 0 1 1 0 0 le_rfl one_pos le_rfl le_rfl (by norm_num)

end IkonosToar
